import Mathlib

/-!
Verification of the Eurostat Comext extractor (src/comext_extractor.py).

The development shallowly embeds the decoding core of `ComextExtractor`:
`_parse_rest_api_response` (the category-index dialect), `_parse_json_response`
(the structure/SDMX dialect) and the endpoint-fallback control flow of
`fetch_data`.  JSON bodies are modelled by the inductive `JVal`; Python dicts
become association lists in insertion order, Python `int(...)` on strings
becomes `pyInt`, `str.split(sep)` becomes `splitOnChar`, and every `ValueError`
(or uncaught `AttributeError`/`TypeError` on a non-conforming container, which
we collapse into a single `typeError` kind) becomes an `Except ParseErr`
result.
-/

namespace Comext

/-- A parsed JSON value as the extractor consumes it.  Numbers are split into
integral values (`jint`) and decimal literals (`jdec mantissa places`, so that
`1234.5` is `jdec 12345 1`); the decoder never performs arithmetic on
observation values, it only passes them through or compares index-map entries
with integer indices. -/
inductive JVal where
  | jnull : JVal
  | jbool : Bool → JVal
  | jint : Int → JVal
  | jdec : Int → Nat → JVal
  | jstr : String → JVal
  | jarr : List JVal → JVal
  | jobj : List (String × JVal) → JVal

/-- First-match lookup in the field list of a JSON object: Python `d[k]` / `k in d`
on a dict held in insertion order. -/
def jlookup (fs : List (String × JVal)) (k : String) : Option JVal :=
  match fs with
  | [] => none
  | (k1, v) :: rest => if k1 = k then some v else jlookup rest k

/-- Python dict assignment `d[k] = v`: overwrite in place when the key exists,
else append, preserving insertion order. -/
def dictSet (fs : List (String × JVal)) (k : String) (v : JVal) :
    List (String × JVal) :=
  match fs with
  | [] => [(k, v)]
  | (k1, v1) :: rest =>
    if k1 = k then (k1, v) :: rest else (k1, v1) :: dictSet rest k v

/-- The distinct failure conditions raised inside the two parsers.  In the
source every one of them surfaces as a Python `ValueError` (the REST parser
wraps any exception; the SDMX parser catches `KeyError`/`IndexError`/
`ValueError`); `typeError` stands for faults on non-conforming container
types (`AttributeError`/`TypeError`/`IndexError` on `dataSets[0]`). -/
inductive ParseErr where
  | invalidFormat : ParseErr
  | missingDataSets : ParseErr
  | malformedKey : ParseErr
  | noData : ParseErr
  | noObservations : ParseErr
  | typeError : ParseErr
deriving DecidableEq

/-- One decoded row: a Python dict from column name to cell value, in
insertion order. -/
abbrev Row := List (String × JVal)

/-- Python whitespace as stripped by `str.strip()`. -/
def isPySpace (c : Char) : Bool :=
  c = ' ' || c = '\t' || c = '\n' || c = '\r' || c = '\x0b' || c = '\x0c'

/-- Model of Python `str.strip()` (ASCII whitespace). -/
def pyStrip (s : String) : String :=
  String.mk (((s.toList.dropWhile isPySpace).reverse.dropWhile isPySpace).reverse)

/-- Model of Python `str.upper()` (ASCII letters, the only ones occurring in
the data at hand). -/
def pyUpper (s : String) : String :=
  String.mk (s.toList.map Char.toUpper)

/-- Splitting a character list on a separator character; the last chunk is
always emitted, so the result is never empty (`"".split(sep) == [""]`). -/
def splitCharsAux (sep : Char) : List Char → List Char → List (List Char)
  | [], acc => [acc.reverse]
  | c :: rest, acc =>
    if c = sep then acc.reverse :: splitCharsAux sep rest []
    else splitCharsAux sep rest (c :: acc)

/-- Model of Python `str.split(sep)` for a one-character separator. -/
def splitOnChar (sep : Char) (s : String) : List String :=
  (splitCharsAux sep s.toList []).map String.mk

/-- Value of a nonempty all-digit character list, else `none`. -/
def digitsVal (cs : List Char) : Option Nat :=
  if cs.isEmpty then none
  else if cs.all Char.isDigit then
    some (cs.foldl (fun n c => 10 * n + (c.toNat - 48)) 0)
  else none

/-- Core of `pyInt` after stripping: an optional sign followed by digits. -/
def pyIntChars : List Char → Option Int
  | '-' :: rest => (digitsVal rest).map (fun n => -(n : Int))
  | '+' :: rest => (digitsVal rest).map (fun n => (n : Int))
  | cs => (digitsVal cs).map (fun n => (n : Int))

/-- Model of Python `int(s)` on a string: surrounding whitespace is ignored,
an optional single sign is honoured, then a nonempty run of ASCII digits.
(The exotic extras of CPython `int` — underscores between digits, non-ASCII
digits — are not modelled; no input in this development uses them.) -/
def pyInt (s : String) : Option Int :=
  pyIntChars (pyStrip s).toList

/-- Model of `[int(idx) for idx in key.split(sep)]` with the default `:`
delimiter: `none` models the `ValueError` raised at the first bad segment. -/
def parseIndices (key : String) : Option (List Int) :=
  (splitOnChar ':' key).mapM pyInt

/-- Python `==` between a JSON value and an integer index (`True == 1` holds
in Python, hence the `jbool` case). -/
def jvalEqInt (v : JVal) (n : Int) : Bool :=
  match v with
  | .jint m => m = n
  | .jdec m p => m = n * (10 ^ p : Int)
  | .jbool b => (if b then (1 : Int) else 0) = n
  | _ => false

/-- The view of a value as a JSON object, else the `AttributeError`/`TypeError`
a Python container-protocol access would raise. -/
def asObj (v : JVal) : Except ParseErr (List (String × JVal)) :=
  match v with
  | .jobj fs => .ok fs
  | _ => .error .typeError

/-- The view of a value as a JSON array. -/
def asArr (v : JVal) : Except ParseErr (List JVal) :=
  match v with
  | .jarr xs => .ok xs
  | _ => .error .typeError

/-- Python dict access `v.get(k, dflt)` on a value that must be a dict. -/
def jgetD (v : JVal) (k : String) (dflt : JVal) : Except ParseErr JVal :=
  match v with
  | .jobj fs => .ok ((jlookup fs k).getD dflt)
  | _ => .error .typeError

/-- Decimal digits of a natural number, via the fuel pattern so that the
definition is structurally recursive and kernel-reducible. -/
def natDigitsAux : Nat → Nat → List Char → List Char
  | 0, _, acc => acc
  | fuel + 1, n, acc =>
    if n < 10 then Char.ofNat (48 + n) :: acc
    else natDigitsAux fuel (n / 10) (Char.ofNat (48 + n % 10) :: acc)

/-- Model of Python `str(i)` on an integer. -/
def pyStr (i : Int) : String :=
  match i with
  | .ofNat n => String.mk (natDigitsAux (n + 1) n [])
  | .negSucc n => String.mk ('-' :: natDigitsAux (n + 2) (n + 1) [])

/-- The reverse lookup of `_parse_rest_api_response` (lines 139-142): the
`for label, idx in dim_values.items(): if idx == indices[i]: ... break`
loop over the code→index mapping, returning the first code whose declared
index equals `n`. -/
def reverseLookup (dimValues : List (String × JVal)) (n : Int) : Option String :=
  match dimValues with
  | [] => none
  | (code, v) :: rest => if jvalEqInt v n then some code else reverseLookup rest n

/-- Category-index label resolution (lines 138-145): the first matching code,
else the fallback of the for/else construct, `str(indices[i])`. -/
def restResolve (dimValues : List (String × JVal)) (n : Int) : String :=
  match reverseLookup dimValues n with
  | some code => code
  | none => pyStr n

/-- The inner loop of `_parse_rest_api_response` (lines 134-145): walk
`enumerate(ids)`, and for each position both inside `indices` and naming a
dimension present in the dimension map, set `row[dim_id.upper()]` to the
resolved label. -/
def restBuildRow (dimensions : List (String × JVal)) :
    List String → Nat → List Int → Row → Except ParseErr Row
  | [], _, _, row => .ok row
  | dimId :: rest, i, indices, row =>
    match jlookup dimensions dimId with
    | some dimEntry =>
      if i < indices.length then
        match jgetD dimEntry "category" (.jobj []) with
        | .error e => .error e
        | .ok category =>
          match jgetD category "index" (.jobj []) with
          | .error e => .error e
          | .ok idxMapV =>
            match asObj idxMapV with
            | .error e => .error e
            | .ok dimValues =>
              restBuildRow dimensions rest (i + 1) indices
                (dictSet row (pyUpper dimId)
                  (.jstr (restResolve dimValues (indices.getD i 0))))
      else restBuildRow dimensions rest (i + 1) indices row
    | none => restBuildRow dimensions rest (i + 1) indices row

/-- The row loop of `_parse_rest_api_response` (lines 129-148): one row per
observation entry; a key whose `int(...)` parse fails raises `ValueError`,
which the surrounding `except Exception` turns into the parser-level
`ValueError` — the whole decode aborts (`malformedKey`). -/
def restRows (dimensions : List (String × JVal)) (ids : List String) :
    List (String × JVal) → Except ParseErr (List Row)
  | [] => .ok []
  | (key, value) :: rest =>
    match parseIndices key with
    | none => .error .malformedKey
    | some indices =>
      match restBuildRow dimensions ids 0 indices [] with
      | .error e => .error e
      | .ok row =>
        match restRows dimensions ids rest with
        | .error e => .error e
        | .ok rows => .ok (dictSet row "OBS_VALUE" value :: rows)

/-- The elements of the `id` array as strings (the call `dim_id.upper()`
requires strings; any other element type would fault in Python too). -/
def asStrList : List JVal → Except ParseErr (List String)
  | [] => .ok []
  | .jstr s :: rest =>
    match asStrList rest with
    | .error e => .error e
    | .ok ss => .ok (s :: ss)
  | _ => .error .typeError

/-- Model of `ComextExtractor._parse_rest_api_response` (lines 108-156):
requires top-level `value`; reads `dimension` and `id` with empty defaults;
builds one row per observation key; raises `No data found in response`
(`noData`) when the row list is empty.  Every raised exception is wrapped
into a `ValueError` by the enclosing `except Exception`. -/
def parse_rest_api_response (jsonData : JVal) : Except ParseErr (List Row) :=
  match asObj jsonData with
  | .error e => .error e
  | .ok top =>
    match jlookup top "value" with
    | none => .error .invalidFormat
    | some valuesV =>
      match asObj valuesV with
      | .error e => .error e
      | .ok values =>
        match asObj ((jlookup top "dimension").getD (.jobj [])) with
        | .error e => .error e
        | .ok dimensions =>
          match asArr ((jlookup top "id").getD (.jarr [])) with
          | .error e => .error e
          | .ok idsV =>
            match asStrList idsV with
            | .error e => .error e
            | .ok ids =>
              match restRows dimensions ids values with
              | .error e => .error e
              | .ok rows => if rows.isEmpty then .error .noData else .ok rows

/-- Model of the comprehension building `dimension_names` from the `id` field of each entry (line 185): each entry must
be a dict carrying `id` (a `KeyError` is wrapped into a `ValueError`). -/
def dimensionNames : List JVal → Except ParseErr (List String)
  | [] => .ok []
  | d :: rest =>
    match d with
    | .jobj fs =>
      match jlookup fs "id" with
      | some (.jstr s) =>
        match dimensionNames rest with
        | .error e => .error e
        | .ok ns => .ok (s :: ns)
      | some _ => .error .typeError
      | none => .error .typeError
    | _ => .error .typeError

/-- Python list indexing `xs[n]` as guarded by `indices[i] < len(dim_values)`:
a non-negative index reads left to right, a negative index reads from the end
(`xs[-1]` is the last element), and an index below `-len(xs)` raises
`IndexError`. -/
def pyListGet (xs : List JVal) (n : Int) : Except ParseErr JVal :=
  if 0 ≤ n then
    if n < (xs.length : Int) then .ok (xs.getD n.toNat .jnull)
    else .error .typeError
  else
    if -(xs.length : Int) ≤ n then .ok (xs.getD (xs.length - (-n).toNat) .jnull)
    else .error .typeError

/-- The per-dimension catalog array, read from the `values` field of the dimension entry with an empty-list default,
(line 205). -/
def jgetValues (d : JVal) : Except ParseErr (List JVal) :=
  match jgetD d "values" (.jarr []) with
  | .error e => .error e
  | .ok v => asArr v

/-- Extraction of the primitive observation value in `_parse_json_response`
(lines 210-215): a nonempty list contributes its first element, a dict its
`value` field (else the whole dict), anything else passes through. -/
def extractObsValue (v : JVal) : JVal :=
  match v with
  | .jarr (x :: _) => x
  | .jarr [] => .jarr []
  | .jobj fs => (jlookup fs "value").getD (.jobj fs)
  | w => w

/-- The inner loop of `_parse_json_response` (lines 203-207): for each
dimension position inside both `indices` and `dimensions`, when the index is
below the catalog length, set `row[dim_name]` (the name verbatim, not
upper-cased) to the `id` field of that entry (default `""`). -/
def jsonBuildRow (dimensions : List JVal) :
    List String → Nat → List Int → Row → Except ParseErr Row
  | [], _, _, row => .ok row
  | dimName :: rest, i, indices, row =>
    if i < indices.length ∧ i < dimensions.length then
      match jgetValues (dimensions.getD i .jnull) with
      | .error e => .error e
      | .ok dimValues =>
        if indices.getD i 0 < (dimValues.length : Int) then
          match pyListGet dimValues (indices.getD i 0) with
          | .error e => .error e
          | .ok entry =>
            match jgetD entry "id" (.jstr "") with
            | .error e => .error e
            | .ok idV =>
              jsonBuildRow dimensions rest (i + 1) indices (dictSet row dimName idV)
        else jsonBuildRow dimensions rest (i + 1) indices row
    else jsonBuildRow dimensions rest (i + 1) indices row

/-- The row loop of `_parse_json_response` (lines 193-217): a key whose
`int(...)` parse fails is skipped (`except ValueError: continue`) and the
decode continues; every surviving key contributes one row ending in
`OBS_VALUE`. -/
def jsonRows (dimensions : List JVal) (names : List String) :
    List (String × JVal) → Except ParseErr (List Row)
  | [] => .ok []
  | (key, value) :: rest =>
    match parseIndices key with
    | none => jsonRows dimensions names rest
    | some indices =>
      match jsonBuildRow dimensions names 0 indices [] with
      | .error e => .error e
      | .ok row =>
        match jsonRows dimensions names rest with
        | .error e => .error e
        | .ok rows => .ok (dictSet row "OBS_VALUE" (extractObsValue value) :: rows)

/-- Model of `ComextExtractor._parse_json_response` (lines 158-228): requires
top-level `dataSets`; catalogs come from `structure.dimensions.observation`,
else `structure.dimensions.series`, else `[]`; observations come from
`dataSets[0].observations`, else (when falsy) `dataSets[0].series`; an empty
row list raises `No observations found in response` (`noObservations`). -/
def parse_json_response (jsonData : JVal) : Except ParseErr (List Row) :=
  match asObj jsonData with
  | .error e => .error e
  | .ok top =>
    match jlookup top "dataSets" with
    | none => .error .missingDataSets
    | some dataSetsV =>
      match asArr dataSetsV with
      | .error e => .error e
      | .ok dataSets =>
        match dataSets with
        | [] => .error .typeError
        | dataSet :: _ =>
          match jgetD ((jlookup top "structure").getD (.jobj [])) "dimensions" (.jobj []) with
          | .error e => .error e
          | .ok dimsV =>
            match asObj dimsV with
            | .error e => .error e
            | .ok dims =>
              match asArr ((jlookup dims "observation").getD
                  ((jlookup dims "series").getD (.jarr []))) with
              | .error e => .error e
              | .ok dimensions =>
                match dimensionNames dimensions with
                | .error e => .error e
                | .ok names =>
                  match jgetD dataSet "observations" (.jobj []) with
                  | .error e => .error e
                  | .ok obsV =>
                    match asObj obsV with
                    | .error e => .error e
                    | .ok obs0 =>
                      match (if obs0.isEmpty then
                          match jgetD dataSet "series" (.jobj []) with
                          | .error e => .error e
                          | .ok sv => asObj sv
                        else .ok obs0 : Except ParseErr (List (String × JVal))) with
                      | .error e => .error e
                      | .ok observations =>
                        match jsonRows dimensions names observations with
                        | .error e => .error e
                        | .ok rows =>
                          if rows.isEmpty then .error .noObservations else .ok rows

/-- An HTTP response as `fetch_data` consumes it: the status code, the parsed
JSON body (used by the REST attempt via `response.json()`) and the raw text
(used by the SDMX-CSV attempt via `response.text`). -/
structure HttpResponse where
  status : Nat
  json : JVal
  text : String

/-- The two exception families escaping `fetch_data`: a `ValueError` raised
by the JSON parse of a 200 body (which `except requests.RequestException`
does not catch, so it propagates to the caller directly), and the
`requests`-level error produced by `raise_for_status` and re-raised as a
`RequestException` with the status attached. -/
inductive FetchErr where
  | valueError : ParseErr → FetchErr
  | requestException : Nat → FetchErr
deriving DecidableEq

/-- The observable outcome of `fetch_data`: a DataFrame built from REST rows,
a DataFrame built from the CSV text with normalized column names, a raised
exception, or `noResult` for the paths where `raise_for_status` is a no-op
(status outside 400-599) and the function falls off the end returning
`None`. -/
inductive FetchResult where
  | restTable : List Row → FetchResult
  | csvTable : List String → List (List String) → FetchResult
  | failure : FetchErr → FetchResult
  | noResult : FetchResult

/-- Minimal model of the external CSV reader (`pandas.read_csv` on
`StringIO(response.text)`): the first nonblank line is the header, the
remaining nonblank lines are the data rows, fields split on commas.  A
header-only text yields an empty frame that still carries its columns. -/
def readCsv (text : String) : List String × List (List String) :=
  match (splitOnChar '\n' text).filter (fun l => !l.isEmpty) with
  | [] => ([], [])
  | header :: rest => (splitOnChar ',' header, rest.map (splitOnChar ','))

/-- The column normalization applied to the CSV attempt (line 93):
`df.columns.str.strip().str.upper()`. -/
def normalizeColumns (cols : List String) : List String :=
  cols.map (fun c => pyUpper (pyStrip c))

/-- Model of `requests.Response.raise_for_status`: an `HTTPError` is raised
exactly for statuses 400-599. -/
def raisesForStatus (status : Nat) : Bool :=
  decide (400 ≤ status) && decide (status < 600)

/-- Model of `ComextExtractor.fetch_data` (lines 58-106).  A 200 primary
response is handed to `_parse_rest_api_response`, whose `ValueError`
propagates uncaught; a 404/406 primary response triggers exactly one request
against the secondary SDMX endpoint, whose 200 text is read as CSV with
normalized columns; otherwise `raise_for_status` runs on whichever response
is current (the secondary one in the 404/406 branch), raising for 400-599
and silently returning `None` for any other status. -/
def fetch_data (primary secondary : HttpResponse) : FetchResult :=
  if primary.status = 200 then
    match parse_rest_api_response primary.json with
    | .ok rows => .restTable rows
    | .error e => .failure (.valueError e)
  else if primary.status = 404 ∨ primary.status = 406 then
    if secondary.status = 200 then
      .csvTable (normalizeColumns (readCsv secondary.text).1) (readCsv secondary.text).2
    else if raisesForStatus secondary.status then
      .failure (.requestException secondary.status)
    else .noResult
  else if raisesForStatus primary.status then
    .failure (.requestException primary.status)
  else .noResult

/-- How many requests `fetch_data` issues against the secondary SDMX
endpoint, read off the branch structure of lines 76-96: the secondary
`session.get` statement executes exactly once when the primary status is
404 or 406 and never otherwise (a 200 goes straight to the JSON parse, any
other status goes straight to `raise_for_status`). -/
def secondaryRequests (primaryStatus : Nat) : Nat :=
  if primaryStatus = 200 then 0
  else if primaryStatus = 404 ∨ primaryStatus = 406 then 1
  else 0

/-- Whether a value is a JSON object. -/
def isJObj : JVal → Bool
  | .jobj _ => true
  | _ => false

/-- A structurally well-formed dimension entry of the structure dialect (the
shape every Eurostat catalog entry has): a dict whose `id` field is a string
and whose optional `values` field is an array of dicts.  On such catalogs
neither `dimensionNames` nor the row builder can fault on container types. -/
def wfDim : JVal → Bool
  | .jobj fs =>
    (match jlookup fs "id" with
      | some (.jstr _) => true
      | _ => false)
    && (match jlookup fs "values" with
      | none => true
      | some (.jarr vs) => vs.all isJObj
      | some _ => false)
  | _ => false

/-- A structure-dialect payload with the given catalog array and observation
map, in the exact top-level shape `_parse_json_response` reads. -/
def mkStructBody (dims : List JVal) (obs : List (String × JVal)) : JVal :=
  .jobj [("dataSets", .jarr [.jobj [("observations", .jobj obs)]]),
         ("structure", .jobj [("dimensions", .jobj [("observation", .jarr dims)])])]

/-- The category-index scenario payload of the spec: key `0:1:2`, dimension
order `freq, indic_et, partner`, catalogs `A=0`, `EXP=1`, `CN=2`, observation
value `1234.5`. -/
def c8Body : JVal :=
  .jobj [("value", .jobj [("0:1:2", .jdec 12345 1)]),
         ("dimension", .jobj [
            ("freq", .jobj [("category", .jobj [("index", .jobj [("A", .jint 0)])])]),
            ("indic_et", .jobj [("category", .jobj [("index", .jobj [("EXP", .jint 1)])])]),
            ("partner", .jobj [("category", .jobj [("index", .jobj [("CN", .jint 2)])])])]),
         ("id", .jarr [.jstr "freq", .jstr "indic_et", .jstr "partner"])]

/-- A category-index payload carrying a well-formed key `0` alongside a
malformed key `x`. -/
def c2CounterBody : JVal :=
  .jobj [("value", .jobj [("0", .jint 1), ("x", .jint 2)]),
         ("dimension", .jobj [
            ("freq", .jobj [("category", .jobj [("index", .jobj [("A", .jint 0)])])])]),
         ("id", .jarr [.jstr "freq"])]

/-- A category-index payload with the malformed key `y` after the well-formed
key `1:0`. -/
def c2RestBody : JVal :=
  .jobj [("value", .jobj [("1:0", .jint 3), ("y", .jint 7)]),
         ("dimension", .jobj [
            ("freq", .jobj [("category", .jobj [("index", .jobj [("A", .jint 0), ("Q", .jint 1)])])])]),
         ("id", .jarr [.jstr "freq"])]

/-- A structure-dialect payload whose structure block offers both an
`observation` and a `series` dimension array. -/
def c3PreferBody : JVal :=
  .jobj [("dataSets", .jarr [.jobj [("observations", .jobj [("0", .jint 1)])]]),
         ("structure", .jobj [("dimensions", .jobj [
            ("observation", .jarr [.jobj [("id", .jstr "geo"),
               ("values", .jarr [.jobj [("id", .jstr "DE")], .jobj [("id", .jstr "FR")]])]]),
            ("series", .jarr [.jobj [("id", .jstr "unit"),
               ("values", .jarr [.jobj [("id", .jstr "KG")]])]])])])]

/-- A structure-dialect payload offering only the `series` fallbacks: the
dimension array sits under `dimensions.series` and the observations under
`dataSets[0].series`. -/
def c3SeriesBody : JVal :=
  .jobj [("dataSets", .jarr [.jobj [("series", .jobj [("1", .jint 2)])]]),
         ("structure", .jobj [("dimensions", .jobj [
            ("series", .jarr [.jobj [("id", .jstr "geo"),
               ("values", .jarr [.jobj [("id", .jstr "DE")], .jobj [("id", .jstr "FR")]])]])])])]

/-- A category-index payload whose `freq` dimension carries both a code→index
map (`A` at 0) and a code→label map (`A` labelled `Annual`). -/
def c4Body : JVal :=
  .jobj [("value", .jobj [("0", .jint 7)]),
         ("dimension", .jobj [
            ("freq", .jobj [("category", .jobj [
               ("index", .jobj [("A", .jint 0)]),
               ("label", .jobj [("A", .jstr "Annual")])])])]),
         ("id", .jarr [.jstr "freq"])]

/-- A category-index payload whose key indexes `freq` outside its catalog
(index 5, catalog only `A=0`) and whose dimension order names `geo`, which is
absent from the dimension map. -/
def c5CatBody : JVal :=
  .jobj [("value", .jobj [("5:0", .jint 1)]),
         ("dimension", .jobj [
            ("freq", .jobj [("category", .jobj [("index", .jobj [("A", .jint 0)])])])]),
         ("id", .jarr [.jstr "freq", .jstr "geo"])]

/-- A structure-dialect payload whose observation key indexes `geo` outside
its one-entry catalog. -/
def c5StructBody : JVal :=
  mkStructBody [.jobj [("id", .jstr "geo"), ("values", .jarr [.jobj [("id", .jstr "DE")]])]]
    [("5", .jint 1)]

/-- The same out-of-range structure payload with a different observation
value. -/
def c5CounterBody : JVal :=
  mkStructBody [.jobj [("id", .jstr "geo"), ("values", .jarr [.jobj [("id", .jstr "DE")]])]]
    [("5", .jint 9)]

/-- The structure-dialect scenario payload of the spec: one `geo` dimension
with entries `DE` and `FR`, observation key `1`. -/
def c6Body : JVal :=
  mkStructBody [.jobj [("id", .jstr "geo"),
      ("values", .jarr [.jobj [("id", .jstr "DE")], .jobj [("id", .jstr "FR")]])]]
    [("1", .jint 3)]

/-- The scenario payload with labels added to the catalog entries, to show
they are not consulted. -/
def c6LabeledBody : JVal :=
  mkStructBody [.jobj [("id", .jstr "geo"),
      ("values", .jarr [.jobj [("id", .jstr "DE"), ("label", .jstr "Germany")],
                        .jobj [("id", .jstr "FR"), ("label", .jstr "France")]])]]
    [("1", .jint 3)]

/-- A structure-dialect payload keyed by `-1:0` over two dimensions. -/
def c9StructBody : JVal :=
  .jobj [("dataSets", .jarr [.jobj [("observations", .jobj [("-1:0", .jint 5)])]]),
         ("structure", .jobj [("dimensions", .jobj [("observation", .jarr
            [.jobj [("id", .jstr "geo"),
                    ("values", .jarr [.jobj [("id", .jstr "DE")], .jobj [("id", .jstr "FR")]])],
             .jobj [("id", .jstr "unit"),
                    ("values", .jarr [.jobj [("id", .jstr "KG")]])]])])])]

/-- A category-index payload keyed by `-1`. -/
def c9RestBody : JVal :=
  .jobj [("value", .jobj [("-1", .jint 2)]),
         ("dimension", .jobj [
            ("freq", .jobj [("category", .jobj [("index", .jobj [("A", .jint 0)])])])]),
         ("id", .jarr [.jstr "freq"])]

/-- A structure-dialect payload keyed by `-1` over the two-entry `geo`
catalog. -/
def c9StructBody2 : JVal :=
  mkStructBody [.jobj [("id", .jstr "geo"),
      ("values", .jarr [.jobj [("id", .jstr "DE")], .jobj [("id", .jstr "FR")]])]]
    [("-1", .jint 6)]

/-- A category-index payload keyed by `-2`. -/
def c9RestBody2 : JVal :=
  .jobj [("value", .jobj [("-2", .jint 4)]),
         ("dimension", .jobj [
            ("freq", .jobj [("category", .jobj [("index", .jobj [("A", .jint 0)])])])]),
         ("id", .jarr [.jstr "freq"])]

/-- A structure-dialect payload keyed by `-5` over the two-entry `geo`
catalog: the guard `indices[i] < len(dim_values)` admits the key but the
list access `dim_values[-5]` raises `IndexError`, aborting the decode. -/
def c9AbortBody : JVal :=
  mkStructBody [.jobj [("id", .jstr "geo"),
      ("values", .jarr [.jobj [("id", .jstr "DE")], .jobj [("id", .jstr "FR")]])]]
    [("-5", .jint 1)]

/-- The reverse-lookup loop agrees with the first-match specification
`List.find?` over the code→index entries. -/
theorem reverseLookup_eq_find (dv : List (String × JVal)) (n : Int) :
    reverseLookup dv n = (List.find? (fun kv => jvalEqInt kv.2 n) dv).map Prod.fst := by
  induction dv with
  | nil => rfl
  | cons kv rest ih =>
    obtain ⟨c, v⟩ := kv
    by_cases h : jvalEqInt v n = true
    · simp [reverseLookup, h]
    · simp only [Bool.not_eq_true] at h
      simp [reverseLookup, h, ih]

/-- A list element fetched with a default at an in-range position is a member
of the list. -/
theorem getD_mem {α : Type} (l : List α) (i : Nat) (d : α) (h : i < l.length) :
    l.getD i d ∈ l := by
  rw [List.getD_eq_getElem?_getD, List.getElem?_eq_getElem h]
  exact List.getElem_mem h

/-- A value satisfying `isJObj` is an object. -/
theorem isJObj_exists {v : JVal} (h : isJObj v = true) :
    ∃ fs, v = JVal.jobj fs := by
  cases v with
  | jobj fs => exact ⟨fs, rfl⟩
  | jnull => simp [isJObj] at h
  | jbool b => simp [isJObj] at h
  | jint n => simp [isJObj] at h
  | jdec m p => simp [isJObj] at h
  | jstr s => simp [isJObj] at h
  | jarr xs => simp [isJObj] at h

/-- On a well-formed dimension entry, reading the catalog array succeeds and
every entry is an object. -/
theorem jgetValues_of_wfDim {d : JVal} (h : wfDim d = true) :
    ∃ vs : List JVal, jgetValues d = .ok vs ∧ vs.all isJObj = true := by
  cases d with
  | jobj fs =>
    simp only [wfDim, Bool.and_eq_true] at h
    obtain ⟨-, h2⟩ := h
    cases hv : jlookup fs "values" with
    | none =>
      exact ⟨[], by simp [jgetValues, jgetD, hv, asArr], rfl⟩
    | some v =>
      rw [hv] at h2
      cases v with
      | jarr vs =>
        exact ⟨vs, by simp [jgetValues, jgetD, hv, asArr], h2⟩
      | jnull => simp at h2
      | jbool b => simp at h2
      | jint n => simp at h2
      | jdec m p => simp at h2
      | jstr s => simp at h2
      | jobj gs => simp at h2
  | jnull => simp [wfDim] at h
  | jbool b => simp [wfDim] at h
  | jint n => simp [wfDim] at h
  | jdec m p => simp [wfDim] at h
  | jstr s => simp [wfDim] at h
  | jarr xs => simp [wfDim] at h

/-- On a list of well-formed dimension entries, extracting the dimension
names succeeds. -/
theorem dimensionNames_ok : ∀ dims : List JVal, dims.all wfDim = true →
    ∃ ns : List String, dimensionNames dims = .ok ns := by
  intro dims
  induction dims with
  | nil => intro _; exact ⟨[], rfl⟩
  | cons d rest ih =>
    intro h
    rw [List.all_cons, Bool.and_eq_true] at h
    obtain ⟨hd, hrest⟩ := h
    obtain ⟨ns, hns⟩ := ih hrest
    cases d with
    | jobj fs =>
      simp only [wfDim, Bool.and_eq_true] at hd
      obtain ⟨h1, -⟩ := hd
      cases hid : jlookup fs "id" with
      | none => rw [hid] at h1; simp at h1
      | some v =>
        rw [hid] at h1
        cases v with
        | jstr s => exact ⟨s :: ns, by simp [dimensionNames, hid, hns]⟩
        | jnull => simp at h1
        | jbool b => simp at h1
        | jint n => simp at h1
        | jdec m p => simp at h1
        | jarr xs => simp at h1
        | jobj gs => simp at h1
    | jnull => simp [wfDim] at hd
    | jbool b => simp [wfDim] at hd
    | jint n => simp [wfDim] at hd
    | jdec m p => simp [wfDim] at hd
    | jstr s => simp [wfDim] at hd
    | jarr xs => simp [wfDim] at hd

/-- Over well-formed catalogs, the structure-dialect row builder cannot fail
on an observation whose indices are all non-negative. -/
theorem jsonBuildRow_ok (dims : List JVal) (hwf : dims.all wfDim = true)
    (ixs : List Int) (hix : ∀ x ∈ ixs, 0 ≤ x) :
    ∀ (names : List String) (i : Nat) (row : Row),
      ∃ r, jsonBuildRow dims names i ixs row = .ok r := by
  intro names
  induction names with
  | nil => intro i row; exact ⟨row, rfl⟩
  | cons dimName rest ih =>
    intro i row
    simp only [jsonBuildRow]
    by_cases hcond : i < ixs.length ∧ i < dims.length
    · rw [if_pos hcond]
      obtain ⟨h1, h2⟩ := hcond
      have hwd : wfDim (dims.getD i .jnull) = true :=
        List.all_eq_true.mp hwf _ (getD_mem dims i .jnull h2)
      obtain ⟨vs, hvs, hobjs⟩ := jgetValues_of_wfDim hwd
      rw [hvs]
      dsimp only
      by_cases hlt : ixs.getD i 0 < (vs.length : Int)
      · rw [if_pos hlt]
        have hnn : 0 ≤ ixs.getD i 0 := hix _ (getD_mem ixs i 0 h1)
        have htn : (ixs.getD i 0).toNat < vs.length := by omega
        have hobj : isJObj (vs.getD (ixs.getD i 0).toNat .jnull) = true :=
          List.all_eq_true.mp hobjs _ (getD_mem vs _ .jnull htn)
        obtain ⟨gs, hgs⟩ := isJObj_exists hobj
        simp only [pyListGet, if_pos hnn, if_pos hlt, hgs, jgetD]
        exact ih _ _
      · rw [if_neg hlt]
        exact ih _ _
    · rw [if_neg hcond]
      exact ih _ _

/-- Over well-formed catalogs and observations whose well-formed keys carry
only non-negative indices, the structure-dialect row loop succeeds and keeps
exactly the observations whose key parse succeeds. -/
theorem jsonRows_count (dims : List JVal) (names : List String)
    (hwf : dims.all wfDim = true) :
    ∀ obs : List (String × JVal),
      (∀ kv ∈ obs, ∀ ixs, parseIndices kv.1 = some ixs → ∀ x ∈ ixs, 0 ≤ x) →
      ∃ rows, jsonRows dims names obs = .ok rows ∧
        rows.length = (obs.filter (fun kv => (parseIndices kv.1).isSome)).length := by
  intro obs
  induction obs with
  | nil => intro _; exact ⟨[], rfl, rfl⟩
  | cons kv rest ih =>
    intro h
    obtain ⟨key, value⟩ := kv
    obtain ⟨rows, hrows, hlen⟩ := ih (fun kv hm => h kv (List.mem_cons_of_mem _ hm))
    cases hp : parseIndices key with
    | none =>
      refine ⟨rows, ?_, ?_⟩
      · simp only [jsonRows, hp, hrows]
      · rw [hlen, List.filter_cons]
        simp [hp]
    | some ixs =>
      have hnn := h (key, value) (List.mem_cons_self _ _) ixs hp
      obtain ⟨row, hrow⟩ := jsonBuildRow_ok dims hwf ixs hnn names 0 []
      refine ⟨dictSet row "OBS_VALUE" (extractObsValue value) :: rows, ?_, ?_⟩
      · simp only [jsonRows, hp, hrow, hrows]
      · rw [List.filter_cons]
        simp [hp, hlen]

/-- C8: decoding the category-index payload with key `0:1:2`, dimension order
`freq, indic_et, partner`, catalogs `A=0`, `EXP=1`, `CN=2` and observation
value `1234.5` produces exactly the row
`FREQ=A, INDIC_ET=EXP, PARTNER=CN, OBS_VALUE=1234.5`, the value passed
through unmodified. -/
theorem C8_scenario :
    parse_rest_api_response c8Body =
      .ok [[("FREQ", .jstr "A"), ("INDIC_ET", .jstr "EXP"), ("PARTNER", .jstr "CN"),
            ("OBS_VALUE", .jdec 12345 1)]] := rfl

/-- C4 counterexample: the `freq` dimension of `c4Body` carries a code→label
map sending code `A` to label `Annual`, yet resolving index 0 yields the code
`A`, not the label `Annual` — the claim that the label mapping is consulted
whenever present is false on this input. -/
theorem C4_counterexample :
    parse_rest_api_response c4Body =
      .ok [[("FREQ", .jstr "A"), ("OBS_VALUE", .jint 7)]] ∧ "A" ≠ "Annual" :=
  ⟨rfl, by decide⟩

/-- C4 (amended): category-index label resolution returns the first code in
catalog iteration order whose declared index equals the dimension index, and
the stringified raw index exactly when no code matches; no code→label mapping
is consulted (the resolver reads only the code→index entries). -/
theorem C4_amended (dv : List (String × JVal)) (n : Int) :
    restResolve dv n =
      match List.find? (fun kv => jvalEqInt kv.2 n) dv with
      | some kv => kv.1
      | none => pyStr n := by
  unfold restResolve
  rw [reverseLookup_eq_find]
  cases List.find? (fun kv => jvalEqInt kv.2 n) dv with
  | none => rfl
  | some kv => rfl

/-- C5 counterexample: in the structure dialect an index outside the catalog
range (5 against a one-entry `geo` catalog) does not resolve to the
stringified index `5`; the `geo` column is omitted from the row entirely. -/
theorem C5_counterexample :
    parse_json_response c5CounterBody = .ok [[("OBS_VALUE", .jint 9)]]
    ∧ jlookup [("OBS_VALUE", .jint 9)] "geo" = none
    ∧ jlookup [("OBS_VALUE", .jint 9)] "GEO" = none :=
  ⟨rfl, rfl, rfl⟩

/-- C5 (amended): in the category-index dialect an index with no matching
code resolves to the stringified raw index and the row is still produced
(first conjunct, and concretely `FREQ="5"` in `c5CatBody`); but a dimension
id absent from the dimension map (the `geo` entry of `c5CatBody`) and a
structure-dialect index beyond the catalog length (`c5StructBody`) make the
column be omitted from the row rather than set to the stringified index. -/
theorem C5_amended :
    (∀ (dv : List (String × JVal)) (n : Int),
        List.find? (fun kv => jvalEqInt kv.2 n) dv = none → restResolve dv n = pyStr n)
    ∧ parse_rest_api_response c5CatBody = .ok [[("FREQ", .jstr "5"), ("OBS_VALUE", .jint 1)]]
    ∧ parse_json_response c5StructBody = .ok [[("OBS_VALUE", .jint 1)]] := by
  refine ⟨?_, rfl, rfl⟩
  intro dv n h
  unfold restResolve
  rw [reverseLookup_eq_find, h]
  rfl

/-- C5 witness: the general fallback conjunct instantiated at the empty
catalog and index 7. -/
theorem C5_witness :
    restResolve [] 7 = pyStr 7
    ∧ parse_rest_api_response c5CatBody = .ok [[("FREQ", .jstr "5"), ("OBS_VALUE", .jint 1)]] :=
  ⟨C5_amended.1 [] 7 rfl, C5_amended.2.1⟩

/-- C6 counterexample: on the scenario payload (`geo` catalog `DE, FR`, key
`1`) the decoded row keys the column `geo` — the dimension name verbatim, not
upper-cased — so the claimed column `GEO` does not exist in the row. -/
theorem C6_counterexample :
    parse_json_response c6Body = .ok [[("geo", .jstr "FR"), ("OBS_VALUE", .jint 3)]]
    ∧ jlookup [("geo", .jstr "FR"), ("OBS_VALUE", .jint 3)] "GEO" = none :=
  ⟨rfl, rfl⟩

/-- C6 (amended): the structure-dialect scenario row maps the dimension name
as written (`geo`, lower-case) to the id of the indexed catalog entry
(`FR`); catalog labels are never consulted (the catalog of
`c6LabeledBody` labels its entries `Germany`/`France`, yet the id `FR` is
used), and no upper-cased `GEO` column exists. -/
theorem C6_amended :
    parse_json_response c6LabeledBody = .ok [[("geo", .jstr "FR"), ("OBS_VALUE", .jint 3)]]
    ∧ jlookup [("geo", .jstr "FR"), ("OBS_VALUE", .jint 3)] "GEO" = none :=
  ⟨rfl, rfl⟩

/-- C9 counterexample: the key `-1:0` is not treated as malformed — rows are
built from it in both dialects.  In the structure dialect Python negative
indexing resolves index `-1` to the last catalog entry (`FR`); in the
category-index dialect the key `-1` yields a row with `FREQ="-1"`. -/
theorem C9_counterexample :
    parse_json_response c9StructBody =
      .ok [[("geo", .jstr "FR"), ("unit", .jstr "KG"), ("OBS_VALUE", .jint 5)]]
    ∧ parse_rest_api_response c9RestBody =
      .ok [[("FREQ", .jstr "-1"), ("OBS_VALUE", .jint 2)]] :=
  ⟨rfl, rfl⟩

/-- C9 (amended): Python `int(...)` accepts signed literals, so a negative
segment parses successfully and the observation is not skipped: the
category-index dialect stringifies the unmatched negative index, the
structure dialect resolves it from the end of the catalog, and an index below
minus the catalog length aborts the whole decode with an `IndexError`;
only a segment whose `int(...)` parse fails (such as `x`) is treated as
malformed. -/
theorem C9_amended :
    pyInt "-1" = some (-1) ∧ pyInt "x" = none
    ∧ parse_json_response c9StructBody2 = .ok [[("geo", .jstr "FR"), ("OBS_VALUE", .jint 6)]]
    ∧ parse_rest_api_response c9RestBody2 = .ok [[("FREQ", .jstr "-2"), ("OBS_VALUE", .jint 4)]]
    ∧ parse_json_response c9AbortBody = .error .typeError :=
  ⟨rfl, rfl, rfl, rfl, rfl⟩

/-- C1 counterexample: a 200 primary response whose body decodes to zero
observations makes `fetch_data` raise the parse `ValueError` directly to the
caller — the secondary endpoint is not attempted (zero secondary requests)
even though a healthy secondary response is available. -/
theorem C1_counterexample :
    fetch_data ⟨200, .jobj [("value", .jobj [])], ""⟩ ⟨200, .jnull, "geo\nDE"⟩ =
      .failure (.valueError .noData)
    ∧ secondaryRequests 200 = 0 :=
  ⟨rfl, rfl⟩

/-- C1 (amended): any decode failure of a 200 primary body — `NoObservations`,
`UnrecognizedDialect`, or any other parse fault — propagates directly to the
caller as a `ValueError`, and the secondary endpoint is never attempted after
a 200; the secondary is reached only from the 404/406 branch. -/
theorem C1_amended (p s : HttpResponse) (e : ParseErr)
    (h200 : p.status = 200) (hp : parse_rest_api_response p.json = .error e) :
    fetch_data p s = .failure (.valueError e) ∧ secondaryRequests p.status = 0 := by
  constructor
  · simp [fetch_data, h200, hp]
  · simp [secondaryRequests, h200]

/-- C1 witness: the amended theorem at a 200 response whose body lacks the
top-level `value` field. -/
theorem C1_witness :
    fetch_data ⟨200, .jobj [], ""⟩ ⟨200, .jnull, ""⟩ = .failure (.valueError .invalidFormat)
    ∧ secondaryRequests 200 = 0 :=
  C1_amended ⟨200, .jobj [], ""⟩ ⟨200, .jnull, ""⟩ .invalidFormat rfl rfl

/-- C7 counterexample: a primary status of 204 — a non-200 status — is not
reported as a terminal failure: `raise_for_status` is a no-op below 400, so
`fetch_data` returns `None`, and the secondary endpoint is not contacted. -/
theorem C7_counterexample :
    fetch_data ⟨204, .jnull, ""⟩ ⟨200, .jnull, "geo\nDE"⟩ = .noResult
    ∧ secondaryRequests 204 = 0 :=
  ⟨rfl, rfl⟩

/-- C7 (amended): a 404/406 primary response issues exactly one secondary
request, any other primary status issues none; a primary status in 400-599
(other than 404/406) raises `RequestException` immediately, and a non-200
primary status outside 400-599 (such as 204 or 301) yields neither a table
nor an error — the function returns `None`. -/
theorem C7_amended :
    (∀ s : Nat, s = 404 ∨ s = 406 → secondaryRequests s = 1)
    ∧ (∀ s : Nat, ¬(s = 404 ∨ s = 406) → secondaryRequests s = 0)
    ∧ (∀ p sec : HttpResponse, ¬p.status = 200 → ¬(p.status = 404 ∨ p.status = 406) →
        raisesForStatus p.status = true →
        fetch_data p sec = .failure (.requestException p.status))
    ∧ (∀ p sec : HttpResponse, ¬p.status = 200 → ¬(p.status = 404 ∨ p.status = 406) →
        raisesForStatus p.status = false →
        fetch_data p sec = .noResult) := by
  refine ⟨?_, ?_, ?_, ?_⟩
  · intro s hs
    rcases hs with rfl | rfl <;> rfl
  · intro s hs
    by_cases h1 : s = 200
    · simp [secondaryRequests, h1]
    · simp [secondaryRequests, h1, hs]
  · intro p sec h200 h44 hr
    simp [fetch_data, h200, h44, hr]
  · intro p sec h200 h44 hr
    simp [fetch_data, h200, h44, hr]

/-- C7 witness: the amended theorem at statuses 404, 500 and 301. -/
theorem C7_witness :
    secondaryRequests 404 = 1 ∧ secondaryRequests 500 = 0
    ∧ fetch_data ⟨500, .jnull, ""⟩ ⟨200, .jnull, ""⟩ = .failure (.requestException 500)
    ∧ fetch_data ⟨301, .jnull, ""⟩ ⟨200, .jnull, ""⟩ = .noResult :=
  ⟨C7_amended.1 404 (Or.inl rfl), C7_amended.2.1 500 (by decide),
   C7_amended.2.2.1 ⟨500, .jnull, ""⟩ ⟨200, .jnull, ""⟩ (by decide) (by decide) rfl,
   C7_amended.2.2.2 ⟨301, .jnull, ""⟩ ⟨200, .jnull, ""⟩ (by decide) (by decide) rfl⟩

/-- C10: on a 404/406 primary, a 200 secondary response is always returned as
a CSV-backed table with trimmed and upper-cased column names — never put
through the JSON decoders, so the zero-rows condition of the primary decode
(`NoObservations`) is never applied to it; concretely, a header-only CSV body
comes back as an empty but successful table with normalized columns. -/
theorem C10_secondary :
    (∀ p s : HttpResponse, (p.status = 404 ∨ p.status = 406) → s.status = 200 →
      fetch_data p s = .csvTable (normalizeColumns (readCsv s.text).1) (readCsv s.text).2)
    ∧ fetch_data ⟨404, .jnull, ""⟩ ⟨200, .jnull, "geo ,obs_value\n"⟩ =
        .csvTable ["GEO", "OBS_VALUE"] [] := by
  constructor
  · intro p s h44 h200
    have h200p : ¬p.status = 200 := by rcases h44 with h | h <;> omega
    simp [fetch_data, h200p, h44, h200]
  · rfl

/-- C10 witness: the general conjunct at a 406 primary and a two-line CSV
body. -/
theorem C10_witness :
    fetch_data ⟨406, .jnull, ""⟩ ⟨200, .jnull, "a,b\n1,2"⟩ =
      .csvTable (normalizeColumns (readCsv "a,b\n1,2").1) (readCsv "a,b\n1,2").2 :=
  C10_secondary.1 ⟨406, .jnull, ""⟩ ⟨200, .jnull, "a,b\n1,2"⟩ (Or.inr rfl) rfl

/-- C3 counterexample: a body whose only top-level field is `value` — lacking
the `dimension` and `id` fields the claim calls required, and lacking
`dataSets` — does not fail with `UnrecognizedDialect`: the category-index
parser accepts it and decodes a row. -/
theorem C3_counterexample :
    parse_rest_api_response (.jobj [("value", .jobj [("0", .jint 4)])]) =
      .ok [[("OBS_VALUE", .jint 4)]] := rfl

/-- C3 (amended): the category-index parser requires only the top-level
`value` field (`dimension` and `id` default to empty); the structure parser
requires the top-level `dataSets` field; a 200 response is always dispatched
to the category-index parser; and within the structure parser the
`observation` dimension array is preferred over `series`, as are
`dataSets[0].observations` over `dataSets[0].series` (the two concrete
payloads). -/
theorem C3_amended :
    (∀ fs : List (String × JVal), jlookup fs "value" = none →
        parse_rest_api_response (.jobj fs) = .error .invalidFormat)
    ∧ (∀ fs : List (String × JVal), jlookup fs "dataSets" = none →
        parse_json_response (.jobj fs) = .error .missingDataSets)
    ∧ (∀ p s : HttpResponse, p.status = 200 →
        fetch_data p s =
          match parse_rest_api_response p.json with
          | .ok rows => .restTable rows
          | .error e => .failure (.valueError e))
    ∧ parse_json_response c3PreferBody = .ok [[("geo", .jstr "DE"), ("OBS_VALUE", .jint 1)]]
    ∧ parse_json_response c3SeriesBody = .ok [[("geo", .jstr "FR"), ("OBS_VALUE", .jint 2)]] := by
  refine ⟨?_, ?_, ?_, rfl, rfl⟩
  · intro fs h
    simp [parse_rest_api_response, asObj, h]
  · intro fs h
    simp [parse_json_response, asObj, h]
  · intro p s h
    simp [fetch_data, h]

/-- C3 witness: the two dialect-requirement conjuncts at the empty body and
the dispatch conjunct at a 200 response. -/
theorem C3_witness :
    parse_rest_api_response (.jobj []) = .error .invalidFormat
    ∧ parse_json_response (.jobj []) = .error .missingDataSets
    ∧ fetch_data ⟨200, c8Body, ""⟩ ⟨200, .jnull, ""⟩ =
        match parse_rest_api_response c8Body with
        | .ok rows => .restTable rows
        | .error e => .failure (.valueError e) :=
  ⟨C3_amended.1 [] rfl, C3_amended.2.1 [] rfl,
   C3_amended.2.2.1 ⟨200, c8Body, ""⟩ ⟨200, .jnull, ""⟩ rfl⟩

/-- C2 counterexample: a category-index payload whose observation map holds
the well-formed key `0` alongside the malformed key `x` does not produce a
row for the well-formed key — the whole decode aborts with a `ValueError`. -/
theorem C2_counterexample :
    parse_rest_api_response c2CounterBody = .error .malformedKey := rfl

/-- C2 (amended): in the structure dialect, keys whose integer parse fails
are skipped individually and decoding yields exactly one row per key whose
parse succeeds (over well-formed catalogs and keys carrying non-negative
indices); in the category-index dialect, one malformed key aborts the whole
decode — no rows survive. -/
theorem C2_amended :
    (∀ (dims : List JVal) (names : List String) (obs : List (String × JVal)),
        dims.all wfDim = true →
        (∀ kv ∈ obs, ∀ ixs, parseIndices kv.1 = some ixs → ∀ x ∈ ixs, 0 ≤ x) →
        ∃ rows, jsonRows dims names obs = .ok rows ∧
          rows.length = (obs.filter (fun kv => (parseIndices kv.1).isSome)).length)
    ∧ parse_rest_api_response c2RestBody = .error .malformedKey := by
  refine ⟨?_, rfl⟩
  intro dims names obs hwf h
  exact jsonRows_count dims names hwf obs h

/-- C2 witness: the structure-dialect conjunct at the `geo` catalog and a
two-key observation map mixing the malformed key `x` with the well-formed
key `1`. -/
theorem C2_witness :
    ∃ rows, jsonRows
        [.jobj [("id", .jstr "geo"),
                ("values", .jarr [.jobj [("id", .jstr "DE")], .jobj [("id", .jstr "FR")]])]]
        ["geo"] [("x", .jint 1), ("1", .jint 2)] = .ok rows
      ∧ rows.length =
        (([("x", JVal.jint 1), ("1", JVal.jint 2)]).filter
          (fun kv => (parseIndices kv.1).isSome)).length :=
  C2_amended.1
    [.jobj [("id", .jstr "geo"),
            ("values", .jarr [.jobj [("id", .jstr "DE")], .jobj [("id", .jstr "FR")]])]]
    ["geo"] [("x", .jint 1), ("1", .jint 2)] (by decide)
    (by
      intro kv hm ixs hp x hx
      fin_cases hm
      · exact Option.noConfusion (show (none : Option (List Int)) = some ixs from hp)
      · have hp2 : some [(1 : Int)] = some ixs := hp
        injection hp2 with h
        subst h
        simp only [List.mem_singleton] at hx
        omega)

end Comext
